import Mathlib

/-!
# Verification of the Shopify → Payload NFC-plate ingestion pipeline

Shallow embedding of the webhook pipeline of this repository:

* `src/utils/getPackSize.ts`      — pack-size inference (`getPackSize`)
* `src/utils/extractGroups.ts`    — line-item group extraction (`extractGroups`)
* `src/utils/verifyShopifyHmac.ts`— HMAC gate (`checkShopifySignature`),
  duplicate-key classification (`isDuplicateKeyError`), `isGPageReview`
* `src/webhook/orders-paid.endpoint.ts` — the `shopifyOrdersPaidWebhook`
  handler (topic/webhookId/HMAC gates, anti-replay registration, JSON
  parsing, order upsert, idempotent plate generation, finalization)
* the Payload collection configs `orders`, `plates`, `webhook-events`
  (unique indexes on `orderNumber`, `sourceKey`, `webhookId`).

Modelling conventions:
* JS strings are Lean `String`s; the JS string operations used by the code
  (`trim`, `toLowerCase`, `includes`, the pack-size regular expression) are
  re-implemented over `String.data` so that everything evaluates by `decide`.
  `toLowerCase` is modelled on ASCII letters (all inputs the code compares
  against are ASCII).
* JS numbers occurring in the payloads (quantities, pack counts) are
  integers in every payload Shopify sends, so they are modelled as `Int`
  (absent/null as `none`); `Number.isFinite` holds for all of them.
* The database is a value `DB`; each Payload collection is a list of rows.
  `payload.create` on a collection with a unique index rejects a duplicate
  key with a MongoDB `E11000` error, modelled by `mongoDupErr`.
  Failures injected by concurrent executions or infrastructure are modelled
  by an explicit `Inject` oracle; the purely sequential semantics is
  `noInject`.
* An exception that escapes the endpoint handler is turned into an HTTP
  500 response by the surrounding framework.
-/

/-! ## Character and string helpers (JS semantics) -/

def isDigitChar (c : Char) : Bool := '0' ≤ c && c ≤ '9'

/-- JS `\s` on the ASCII range (the regular expression in `getPackSize`
only ever has to cross ASCII whitespace in the labels it is given). -/
def isSpaceChar (c : Char) : Bool :=
  c = ' ' || c = '\t' || c = '\n' || c = '\r' || c = '\x0b' || c = '\x0c'

/-- JS word character (`\w`), used for the `\b` boundary of the regex. -/
def isWordChar (c : Char) : Bool :=
  isDigitChar c || ('a' ≤ c && c ≤ 'z') || ('A' ≤ c && c ≤ 'Z') || c = '_'

def lowerChar (c : Char) : Char :=
  if 'A' ≤ c && c ≤ 'Z' then Char.ofNat (c.toNat + 32) else c

/-- JS `String.prototype.toLowerCase` (ASCII model). -/
def jsToLower (s : String) : String := ⟨s.data.map lowerChar⟩

/-- JS `String.prototype.trim` (ASCII whitespace model). -/
def jsTrim (s : String) : String :=
  ⟨((s.data.dropWhile isSpaceChar).reverse.dropWhile isSpaceChar).reverse⟩

def listStartsWith : List Char → List Char → Bool
  | [], _ => true
  | _ :: _, [] => false
  | p :: ps, c :: cs => p = c && listStartsWith ps cs

def listContainsSub (sub : List Char) : List Char → Bool
  | [] => listStartsWith sub []
  | c :: cs => listStartsWith sub (c :: cs) || listContainsSub sub cs

/-- JS `String.prototype.includes`. -/
def jsIncludes (s sub : String) : Bool := listContainsSub sub.data s.data

/-! ## Decimal rendering of naturals

JS template literals render the unit index `i` in `${orderNumber}|${lineItemId}|${i}`
as its decimal digits; `natToStr` is that rendering, together with the
injectivity fact the idempotency argument needs. -/

def digitChar (n : Nat) : Char := Char.ofNat (48 + n)

def natToStrAux : Nat → Nat → List Char
  | 0, _ => []
  | fuel + 1, n =>
    if n < 10 then [digitChar n]
    else natToStrAux fuel (n / 10) ++ [digitChar (n % 10)]

/-- Decimal rendering of a natural number (the JS `${i}` interpolation). -/
def natToStr (n : Nat) : String := ⟨natToStrAux (n + 1) n⟩

/-- Parse-back used only to prove `natToStr` injective. -/
def digitsVal (l : List Char) : Nat :=
  l.foldl (fun a c => a * 10 + (c.toNat - 48)) 0

theorem digitsVal_append (l : List Char) (c : Char) :
    digitsVal (l ++ [c]) = digitsVal l * 10 + (c.toNat - 48) := by
  simp [digitsVal, List.foldl_append]

theorem digitsVal_digitChar (n : Nat) (h : n < 10) :
    digitsVal [digitChar n] = n := by
  interval_cases n <;> rfl

theorem digitsVal_natToStrAux (fuel n : Nat) (h : n < 10 ^ fuel) :
    digitsVal (natToStrAux (fuel + 1) n) = n := by
  induction fuel generalizing n with
  | zero =>
    have hn : n = 0 := by omega
    subst hn; rfl
  | succ f ih =>
    by_cases h10 : n < 10
    · simp [natToStrAux, h10, digitsVal_digitChar n h10]
    · have hdiv : n / 10 < 10 ^ f := by
        rw [Nat.div_lt_iff_lt_mul (by omega : 0 < 10)]
        calc n < 10 ^ (f + 1) := h
          _ = 10 ^ f * 10 := by ring
      have hrec := ih (n / 10) hdiv
      have hunfold : natToStrAux (f + 1 + 1) n
          = natToStrAux (f + 1) (n / 10) ++ [digitChar (n % 10)] := by
        simp [natToStrAux, h10]
      rw [hunfold, digitsVal_append, hrec]
      have hd : digitsVal [digitChar (n % 10)] = n % 10 :=
        digitsVal_digitChar _ (Nat.mod_lt _ (by omega))
      simp [digitsVal] at hd
      omega

theorem digitsVal_natToStr (n : Nat) : digitsVal (natToStr n).data = n := by
  have h : n < 10 ^ n := Nat.lt_pow_self (by omega) n
  exact digitsVal_natToStrAux n n h

theorem natToStr_injective : Function.Injective natToStr := by
  intro a b hab
  have : digitsVal (natToStr a).data = digitsVal (natToStr b).data := by rw [hab]
  rwa [digitsVal_natToStr, digitsVal_natToStr] at this

/-! ## `getPackSize` (src/utils/getPackSize.ts)

The source searches `hay = variant_title.toLowerCase() + " " + name.toLowerCase()`
for the regular expression `(?:^|[^\d])(\d+)\s*plaque(?:s)?\b` (first match,
left to right) and accepts the captured integer only when it is 1, 2 or 5.

The matcher below is the exact semantics of that regex on the haystack:
a match can start capturing digits at position `j` only when `j` is the
start of the string or the previous character is not a digit (hence `j`
is the start of a maximal digit run); the capture `\d+` is the maximal
digit run (giving back digits can never help, since after `\s*` the next
required character is the letter `p`); then optional whitespace, the
literal `plaque`, an optional `s` and a word boundary. -/

/-- Boundary check for `\b` after `plaque(?:s)?`: if an `s` follows it is
consumed (the greedy alternative; dropping the `s` cannot restore the
boundary because `s` itself is a word character). -/
def packTailOk (rest : List Char) : Bool :=
  match rest with
  | 's' :: r2 => match r2 with
    | [] => true
    | c :: _ => !isWordChar c
  | [] => true
  | c :: _ => !isWordChar c

/-- Try the regex with the digit capture starting at the head of `l`. -/
def tryPackHere (l : List Char) : Option Nat :=
  let digits := l.takeWhile isDigitChar
  if digits.isEmpty then none
  else
    let afterDigits := l.dropWhile isDigitChar
    let afterSpaces := afterDigits.dropWhile isSpaceChar
    if listStartsWith ['p', 'l', 'a', 'q', 'u', 'e'] afterSpaces then
      if packTailOk (afterSpaces.drop 6) then some (digitsVal digits)
      else none
    else none

/-- Left-to-right scan for the first successful match start.  `canStart`
records whether the previous character was a non-digit (or we are at the
start of the string), i.e. whether `(?:^|[^\d])` can succeed here. -/
def packScan : Bool → List Char → Option Nat
  | _, [] => none
  | canStart, c :: rest =>
    if canStart && isDigitChar c then
      match tryPackHere (c :: rest) with
      | some n => some n
      | none => packScan (!isDigitChar c) rest
    else packScan (!isDigitChar c) rest

/-- Line item of a Shopify `orders/paid` payload (the fields the embedded
code reads).  `Option` is JS `null`/`undefined`/absent. -/
structure LineItem where
  variant_title : Option String
  name : Option String
  quantity : Option Int
  current_quantity : Option Int
  id : Option String
  admin_graphql_api_id : Option String
  properties : Option (List (Option String × Option String))
deriving Repr, DecidableEq

/-- The haystack `getPackSize` scans:
`variant_title.toLowerCase() + " " + name.toLowerCase()`. -/
def packHay (item : LineItem) : String :=
  jsToLower (item.variant_title.getD "") ++ " " ++ jsToLower (item.name.getD "")

/-- `getPackSize` from src/utils/getPackSize.ts. -/
def getPackSize (item : LineItem) : Option Nat :=
  match packScan true (packHay item).data with
  | none => none
  | some n => if n = 1 || n = 2 || n = 5 then some n else none

/-! ## `extractGroups` (src/utils/extractGroups.ts) -/

/-- JS truthiness of a string-or-nullish value (`null`, `undefined` and the
empty string are falsy). -/
def truthyOptStr : Option String → Bool
  | none => false
  | some s => s ≠ ""

/-- `findReviewUrlInProperties` from src/utils/extractGroups.ts.  A property
is a `(name, value)` pair; `exact?.value` / `loose?.value` truthiness
collapses "property not found", "no value" and "empty value" into the
fall-through, exactly as in the source. -/
def findReviewUrlInProperties
    (properties : List (Option String × Option String)) : Option String :=
  let exactVal : String :=
    match properties.find?
        (fun p => jsToLower (jsTrim (p.1.getD "")) == "google_business_url") with
    | some p => p.2.getD ""
    | none => ""
  if exactVal != "" then some (jsTrim exactVal)
  else
    let looseVal : String :=
      match properties.find?
          (fun p => jsIncludes (jsToLower (p.1.getD "")) "google") with
      | some p => p.2.getD ""
      | none => ""
    if looseVal != "" then some (jsTrim looseVal) else none

/-- The quantity fallback chain of `extractGroups`:
`Number(item?.quantity ?? item?.current_quantity ?? 1)` guarded by
`Number.isFinite(raw) && raw > 0 ? raw : 1`.  `??` is *nullish* (not falsy)
coalescing: a present `0` does not fall through to `current_quantity`. -/
def jsQuantity (item : LineItem) : Int :=
  let quantityRaw : Int := item.quantity.getD (item.current_quantity.getD 1)
  if 0 < quantityRaw then quantityRaw else 1

/-- One extracted `{reviewUrl, units, lineItemId}` group (named `LineGroup`
here because Mathlib already owns the name `Group`). -/
structure LineGroup where
  reviewUrl : String
  units : Int
  lineItemId : String
deriving Repr, DecidableEq

/-- `orders/paid` payload body (the fields the embedded code reads);
`customer_email` models `body.customer?.email`.  Numeric payload values
(`order_number`) are modelled by their decimal string, which is what
`String(...)` produces from them. -/
structure ShopifyBody where
  line_items : Option (List LineItem)
  order_number : Option String
  name : Option String
  email : Option String
  customer_email : Option String
deriving Repr, DecidableEq

/-- The per-item loop of `extractGroups`.  `throw new Error("NO PACK SIZE")`
is the `Except.error` branch; the two `continue`s (irrelevant line, missing
stable id) recurse without emitting a group. -/
def extractGroupsList : List LineItem → Except String (List LineGroup)
  | [] => .ok []
  | item :: rest =>
    let reviewUrl? : Option String :=
      match item.properties with
      | some props => findReviewUrlInProperties props
      | none => none
    match reviewUrl? with
    | none => extractGroupsList rest
    | some reviewUrl =>
      let quantity := jsQuantity item
      match getPackSize item with
      | none => .error "NO PACK SIZE"
      | some packSize =>
        if !truthyOptStr item.id && !truthyOptStr item.admin_graphql_api_id then
          extractGroupsList rest
        else
          let lineItemId : String :=
            match item.id with
            | some s => s
            | none => item.admin_graphql_api_id.getD ""
          let units : Int := quantity * (packSize : Int)
          match extractGroupsList rest with
          | .error e => .error e
          | .ok gs => .ok (⟨reviewUrl, units, lineItemId⟩ :: gs)

/-- `extractGroups` from src/utils/extractGroups.ts (named
`extractGoogleGroupsFromShopify` at its import site in the handler). -/
def extractGroups (body : ShopifyBody) : Except String (List LineGroup) :=
  extractGroupsList (body.line_items.getD [])

/-! ## Destination-URL validation -/

def strStartsWith (s pre : String) : Bool := listStartsWith pre.data s.data

def strEndsWith (s suf : String) : Bool :=
  listStartsWith suf.data.reverse s.data.reverse

/-- Restricted model of the WHATWG `new URL` parser used by `isGPageReview`:
scheme `http`/`https`, hostname up to the first `/`, `?` or `#`, pathname
from the first `/` up to the first `?` or `#` (the URLs this pipeline
validates carry no userinfo or port).  A string without one of these
schemes fails to parse, as `new URL` throws on it. -/
def parseUrl (s : String) : Option (String × String) :=
  let l := s.data
  let afterScheme? : Option (List Char) :=
    if listStartsWith "https://".data l then some (l.drop 8)
    else if listStartsWith "http://".data l then some (l.drop 7)
    else none
  match afterScheme? with
  | none => none
  | some rest =>
    let hostEnd : Char → Bool := fun c => c = '/' || c = '?' || c = '#'
    let host := rest.takeWhile (fun c => !hostEnd c)
    let after := rest.dropWhile (fun c => !hostEnd c)
    if host.isEmpty then none
    else
      let path : List Char :=
        match after with
        | '/' :: _ => after.takeWhile (fun c => c ≠ '?' && c ≠ '#')
        | _ => ['/']
      some (⟨host⟩, ⟨path⟩)

/-- `isGPageReview` from the repository's URL-validation utility. -/
def isGPageReview (urlStr : String) : Bool :=
  match parseUrl (jsTrim urlStr) with
  | none => false
  | some (host, path) =>
    jsToLower host == "g.page" && strStartsWith path "/r/"
      && strEndsWith path "/review"

/-- Modelled from the spec: `normalizeGoogleReviewLinkStrict` (imported by
the webhook handler) is not among the repository's source files; only its
helper `isGPageReview` is.  Per spec §4.6 the destination URL "must be
validated/normalized (reject if malformed) before any unit is created", so
the model accepts exactly the URLs `isGPageReview` validates, returning the
trimmed URL, and rejects everything else with `none`. -/
def normalizeGoogleReviewLinkStrict (s : String) : Option String :=
  if isGPageReview s then some (jsTrim s) else none

/-! ## `checkShopifySignature` (src/utils/verifyShopifyHmac.ts) -/

inductive SigResult where
  /-- the boolean the function returns -/
  | verdict (b : Bool)
  /-- `throw new Error('SHOPIFY_WEBHOOK_SECRET missing')` -/
  | configError (msg : String)
deriving Repr, DecidableEq

/-- `checkShopifySignature`.  The HMAC-SHA256/base64 digest is abstracted as
the function `hmacFn secret rawBody`; the control flow — falsy-header short
circuit *before* the secret check, missing-secret throw, length-guarded
timing-safe comparison — is the source's. -/
def checkShopifySignature (secret : Option String)
    (hmacFn : String → String → String)
    (rawBody : String) (hmacHeader : Option String) : SigResult :=
  if !truthyOptStr hmacHeader then .verdict false
  else if !truthyOptStr secret then .configError "SHOPIFY_WEBHOOK_SECRET missing"
  else
    let digest := hmacFn (secret.getD "") rawBody
    let h := hmacHeader.getD ""
    if digest.length ≠ h.length then .verdict false
    else .verdict (digest == h)

/-! ## `isDuplicateKeyError` (src/utils/isDuplicateKeyError.ts) -/

/-- A JS error value as the classifier reads it: the nested message fields
it probes, plus `selfString` for `String(err)` when none of them is
present. -/
structure JsError where
  code : Option Int
  message : Option String
  dataMessage : Option String
  dataErrorsMessage : Option String
  errorsMessage : Option String
  selfString : String
deriving Repr, DecidableEq

/-- `String(err?.message ?? err?.data?.message ?? err?.data?.errors?.[0]?.message
?? err?.errors?.[0]?.message ?? err).toLowerCase()`. -/
def errText (e : JsError) : String :=
  jsToLower
    ((((e.message.orElse fun _ => e.dataMessage).orElse
        fun _ => e.dataErrorsMessage).orElse
        fun _ => e.errorsMessage).getD e.selfString)

/-- `isDuplicateKeyError`. -/
def isDuplicateKeyError (e : JsError) : Bool :=
  e.code == some 11000 ||
  jsIncludes (errText e) "e11000" ||
  jsIncludes (errText e) "duplicate" ||
  jsIncludes (errText e) "unique" ||
  jsIncludes (errText e) "already exists" ||
  jsIncludes (errText e) "has already been taken"

/-- The rejection MongoDB raises on a unique-index violation (code 11000,
`E11000 duplicate key error ...`), the error the storage layer hands the
handler when a unique key is already taken. -/
def mongoDupErr (key : String) : JsError :=
  ⟨some 11000, some ("E11000 duplicate key error collection: dup key: " ++ key),
    none, none, none, "MongoServerError"⟩

/-! ## Persistent collections (the Payload collection configs)

Rows carry exactly the declared fields (timestamps, which no claim touches,
are omitted).  `id` is the storage-assigned document id. -/

inductive EvStatus where
  | received
  | processed
  | failed
deriving Repr, DecidableEq

/-- A `webhook-events` row. -/
structure EventRow where
  id : Nat
  provider : String
  webhookId : String
  topic : String
  status : EvStatus
  orderNumber : Option String
  error : Option String
deriving Repr, DecidableEq

/-- An `orders` row (`plates` holds the ids of the referenced plate rows). -/
structure OrderRow where
  id : Nat
  orderNumber : String
  customerEmail : String
  status : String
  activated : Bool
  plates : List Nat
deriving Repr, DecidableEq

/-- A `plates` row (`activatedAt`, a timestamp, is omitted). -/
structure PlateRow where
  id : Nat
  slug : String
  orderId : Nat
  googleReviewUrl : String
  status : String
  sourceKey : String
deriving Repr, DecidableEq

structure DB where
  events : List EventRow
  orders : List OrderRow
  plates : List PlateRow
  nextId : Nat
deriving Repr, DecidableEq

def emptyDB : DB := ⟨[], [], [], 0⟩

/-- The field names declared by the `webhook-events` collection config. -/
def webhookEventsFieldNames : List String :=
  ["provider", "webhookId", "topic", "orderNumber", "status", "error"]

/-- An update payload handed to the handler's `markEvent` helper. -/
structure MarkData where
  status : EvStatus
  orderNumber : Option String
  error : Option String
  createdPlatesCount : Option Nat
deriving Repr, DecidableEq

/-- The keys present in a `markEvent` update payload. -/
def MarkData.keys (d : MarkData) : List String :=
  ["status"]
    ++ (if d.orderNumber.isSome then ["orderNumber"] else [])
    ++ (if d.error.isSome then ["error"] else [])
    ++ (if d.createdPlatesCount.isSome then ["createdPlatesCount"] else [])

/-- The finalize payload of the success path:
`{ status: 'processed', orderNumber, createdPlatesCount }`. -/
def finalizeMark (orderNumber : String) (count : Nat) : MarkData :=
  ⟨.processed, some orderNumber, none, some count⟩

/-- `markEvent` of the handler: update the webhook-event row in place.
Payload sanitizes update data against the collection config, so only
declared fields land on the row — `createdPlatesCount` is not declared by
`webhook-events` and has nowhere to persist.  Update failures are caught
and logged in the source ("must NEVER break the webhook execution"), so
the model never fails here. -/
def markEvent (db : DB) (eventId : Nat) (d : MarkData) : DB :=
  { db with events := db.events.map fun ev =>
      if ev.id == eventId then
        { ev with
            status := d.status,
            orderNumber := match d.orderNumber with
              | some o => some o
              | none => ev.orderNumber,
            error := match d.error with
              | some e => some e
              | none => ev.error }
      else ev }

/-- Failure-injection oracle, modelling errors the storage layer raises
under concurrency or infrastructure failure: `eventCreate` replaces the
anti-replay insert's outcome, `plateCreate key` replaces the plate insert
for `key`.  The sequential failure-free semantics is `noInject`. -/
structure Inject where
  eventCreate : Option JsError
  plateCreate : String → Option JsError

def noInject : Inject := ⟨none, fun _ => none⟩

/-- `payload.create` on `webhook-events` (anti-replay registration): the
unique index rejects an already-present `webhookId`, else the row is
inserted with status `received`. -/
def createWebhookEvent (db : DB) (inj : Option JsError)
    (webhookId topic : String) : Except JsError (DB × Nat) :=
  match inj with
  | some e => .error e
  | none =>
    if db.events.any (fun ev => ev.webhookId == webhookId) then
      .error (mongoDupErr webhookId)
    else
      .ok ({ db with
              events := db.events ++
                [⟨db.nextId, "shopify", webhookId, topic, .received, none, none⟩],
              nextId := db.nextId + 1 }, db.nextId)

/-- Slugs come from `crypto.randomBytes(6).toString('hex')`: cosmetic,
fresh, carrying no meaning; modelled as counter-derived fresh strings. -/
def slugFor (n : Nat) : String := "slug-" ++ natToStr n

inductive PlateCreateRes where
  | ok (db : DB)
  | err (e : JsError)
deriving Repr, DecidableEq

/-- `payload.create` on `plates`: the unique index on `sourceKey` rejects a
duplicate key. -/
def createPlate (db : DB) (inj : String → Option JsError) (orderId : Nat)
    (sourceKey url : String) : PlateCreateRes :=
  match inj sourceKey with
  | some e => .err e
  | none =>
    if db.plates.any (fun p => p.sourceKey == sourceKey) then
      .err (mongoDupErr sourceKey)
    else
      .ok { db with
              plates := db.plates ++
                [⟨db.nextId, slugFor db.nextId, orderId, url, "activated", sourceKey⟩],
              nextId := db.nextId + 1 }

/-- `sourceKey = ${orderNumber}|${g.lineItemId}|${i}`. -/
def sourceKeyFor (orderNumber lineItemId : String) (i : Nat) : String :=
  orderNumber ++ "|" ++ lineItemId ++ "|" ++ natToStr i

inductive LoopRes where
  /-- the loop ran to completion -/
  | proceed (db : DB) (keys created : List String)
  /-- a `markEvent` + `return 200` exit inside the group loop -/
  | earlyReturn (db : DB) (status : Nat)
  /-- an uncaught rethrow (`if (!isDuplicateKeyError(err)) throw err`) -/
  | thrown (e : JsError) (db : DB)
deriving Repr

/-- The inner `for (let i = 0; i < g.units; i++)` loop of the handler: a
`sourceKey` present in the snapshot `keys` is skipped; otherwise creation
is attempted, an error classified by `isDuplicateKeyError` is swallowed
silently, any other error is rethrown.  On success the key joins the
snapshot and the created list. -/
def unitFold (inj : String → Option JsError) (orderId : Nat)
    (orderNumber lineItemId url : String) :
    List Nat → DB → List String → List String → LoopRes
  | [], db, keys, created => .proceed db keys created
  | i :: is, db, keys, created =>
    let key := sourceKeyFor orderNumber lineItemId i
    if keys.contains key then
      unitFold inj orderId orderNumber lineItemId url is db keys created
    else
      match createPlate db inj orderId key url with
      | .ok db' =>
        unitFold inj orderId orderNumber lineItemId url is db'
          (keys ++ [key]) (created ++ [key])
      | .err e =>
        if isDuplicateKeyError e then
          unitFold inj orderId orderNumber lineItemId url is db keys created
        else .thrown e db

/-- The `for (const g of groups)` loop: an empty `lineItemId` or an invalid
review URL marks the event `failed` and returns 200; otherwise the unit
loop runs over the indices `[0, units)`. -/
def groupFold (inj : String → Option JsError) (eventId orderId : Nat)
    (orderNumber : String) :
    List LineGroup → DB → List String → List String → LoopRes
  | [], db, keys, created => .proceed db keys created
  | g :: gs, db, keys, created =>
    if g.lineItemId == "" then
      .earlyReturn
        (markEvent db eventId
          ⟨.failed, some orderNumber,
            some "Missing lineItemId (idempotence impossible)", none⟩) 200
    else
      match normalizeGoogleReviewLinkStrict g.reviewUrl with
      | none =>
        .earlyReturn
          (markEvent db eventId
            ⟨.failed, some orderNumber,
              some ("Invalid Google review URL: " ++ g.reviewUrl), none⟩) 200
      | some url =>
        match unitFold inj orderId orderNumber g.lineItemId url
            (List.range g.units.toNat) db keys created with
        | .proceed db' keys' created' =>
          groupFold inj eventId orderId orderNumber gs db' keys' created'
        | r => r

/-! ## The endpoint handler (src/webhook/orders-paid.endpoint.ts) -/

structure Config where
  /-- `process.env.SHOPIFY_WEBHOOK_SECRET` -/
  secret : Option String
  /-- `process.env.SHOPIFY_WEBHOOK_VERIFY_SIGNATURE` -/
  verifySignatureEnv : Option String
  /-- HMAC-SHA256/base64 digest of (secret, raw body), abstracted -/
  hmacFn : String → String → String

/-- `process.env.SHOPIFY_WEBHOOK_VERIFY_SIGNATURE !== 'false'`. -/
def Config.verifySignature (cfg : Config) : Bool :=
  cfg.verifySignatureEnv != some "false"

/-- An inbound request: raw body (for HMAC), its `JSON.parse` outcome
(`none` = invalid JSON; the JSON grammar itself is not re-implemented),
and the three Shopify headers. -/
structure Req where
  rawBody : String
  parsed : Option ShopifyBody
  topicHeader : Option String
  webhookIdHeader : Option String
  hmacHeader : Option String

/-- Section 5 of the handler (UPSERT ORDER, idempotent): look up the order
by `orderNumber`; update `customerEmail`/`status` in place when found,
otherwise create it with `activated := false`.  Returns the new state and
the order row the rest of the handler works with. -/
def upsertOrder (db : DB) (orderNumber customerEmail : String) :
    DB × OrderRow :=
  match db.orders.find? (fun o => o.orderNumber == orderNumber) with
  | some o =>
    let o' := { o with customerEmail := customerEmail, status := "paid" }
    ({ db with orders := db.orders.map fun x =>
        if x.id == o.id then o' else x }, o')
  | none =>
    let o' : OrderRow :=
      ⟨db.nextId, orderNumber, customerEmail, "paid", false, []⟩
    ({ db with
        orders := db.orders ++ [o'],
        nextId := db.nextId + 1 }, o')

/-- The handler body.  `Except.error` is an uncaught JS exception escaping
the handler, paired with the database state at the throw. -/
def handlerCore (cfg : Config) (inj : Inject) (req : Req) (db : DB) :
    Except (JsError × DB) (Nat × DB) :=
  if req.topicHeader != some "orders/paid" then .ok (401, db)
  else if !truthyOptStr req.webhookIdHeader then .ok (401, db)
  else
    let sigGate : Option Nat :=
      if cfg.verifySignature then
        match checkShopifySignature cfg.secret cfg.hmacFn req.rawBody
            req.hmacHeader with
        | .configError _ => some 500
        | .verdict false => some 401
        | .verdict true => none
      else none
    match sigGate with
    | some s => .ok (s, db)
    | none =>
      match createWebhookEvent db inj.eventCreate (req.webhookIdHeader.getD "")
          (req.topicHeader.getD "") with
      | .error e =>
        if isDuplicateKeyError e then .ok (200, db) else .ok (500, db)
      | .ok (db1, eventId) =>
        match req.parsed with
        | none =>
          .ok (200, markEvent db1 eventId
            ⟨.failed, none, some "Invalid JSON body", none⟩)
        | some body =>
          let orderNumber :=
            (body.order_number.orElse fun _ => body.name).getD ""
          let customerEmail :=
            (body.email.orElse fun _ => body.customer_email).getD ""
          if orderNumber == "" || customerEmail == "" then
            .ok (200, markEvent db1 eventId
              ⟨.failed, none, some "Missing orderNumber or customerEmail", none⟩)
          else
            match extractGroups body with
            | .error msg =>
              -- `extractGoogleGroupsFromShopify` is called outside any
              -- try/catch: the `Error("NO PACK SIZE")` throw escapes the
              -- handler uncaught.
              .error (⟨none, some msg, none, none, none, "Error: " ++ msg⟩, db1)
            | .ok groups =>
              if groups.isEmpty then
                .ok (200, markEvent db1 eventId
                  ⟨.failed, some orderNumber,
                    some "No Google URL found in line_items", none⟩)
              else if groups.any (fun g => decide (g.units ≤ 0)) then
                .ok (200, markEvent db1 eventId
                  ⟨.failed, some orderNumber,
                    some "Unable to infer pack size from variant_title/name (expected 1/2/5 Plaques).",
                    none⟩)
              else
                let upsert : DB × OrderRow :=
                  upsertOrder db1 orderNumber customerEmail
                let db2 := upsert.1
                let order := upsert.2
                let existingKeys :=
                  (((db2.plates.filter (fun p => p.orderId == order.id)).take 500).map
                    (fun p => p.sourceKey)).filter (fun s => s != "")
                match groupFold inj.plateCreate eventId order.id orderNumber
                    groups db2 existingKeys [] with
                | .earlyReturn db3 s => .ok (s, db3)
                | .thrown e db3 => .error (e, db3)
                | .proceed db3 _ created =>
                  let finalPlates :=
                    (db3.plates.filter (fun p => p.orderId == order.id)).take 500
                  let db4 := { db3 with orders := db3.orders.map fun x =>
                      if x.id == order.id then
                        { x with activated := true,
                                 plates := finalPlates.map (fun p => p.id) }
                      else x }
                  let db5 := markEvent db4 eventId
                    (finalizeMark orderNumber created.length)
                  -- the admin-notification email is fire-and-forget and
                  -- touches no collection; it has no effect on the state
                  .ok (200, db5)

/-- `shopifyOrdersPaidWebhook`: an exception escaping the handler is
converted by the surrounding framework into a 500 response. -/
def shopifyOrdersPaidWebhook (cfg : Config) (inj : Inject) (req : Req)
    (db : DB) : Nat × DB :=
  match handlerCore cfg inj req db with
  | .ok r => r
  | .error (_, db') => (500, db')

/-! ## Auxiliary views -/

/-- The database state a loop result carries. -/
def LoopRes.db : LoopRes → DB
  | .proceed db _ _ => db
  | .earlyReturn db _ => db
  | .thrown _ db => db

/-- The `webhookId`s registered in the event ledger. -/
def eventWids (db : DB) : List String := db.events.map fun ev => ev.webhookId

/-- The database state a handler outcome carries (the state at the return
for `ok`, the state at the uncaught throw for `error`). -/
def runDB : Except (JsError × DB) (Nat × DB) → DB
  | .ok (_, db) => db
  | .error (_, db) => db

/-! ## Concrete scenario inputs -/

/-- Degenerate digest function for scenarios that never reach the digest
comparison. -/
def hmacConst : String → String → String := fun _ _ => ""

/-- Configuration with signature verification disabled through the
recognized `SHOPIFY_WEBHOOK_VERIFY_SIGNATURE=false` toggle, used by the
data-path scenarios (which are not about the signature gate). -/
def cfgNoVerify : Config := ⟨some "shared-secret", some "false", hmacConst⟩

/-- Configuration with verification enabled and no shared secret. -/
def cfgNoSecret : Config := ⟨none, none, hmacConst⟩

/-- §8 end-to-end scenario: one line item, destination property
`google_business_url`, quantity 2, variant label `2 Plaques`, stable line
id `li_77`. -/
def itemPack2Qty2 : LineItem :=
  ⟨some "2 Plaques", none, some 2, none, some "li_77", none,
    some [(some "google_business_url", some "https://g.page/r/ABC123/review")]⟩

def bodyScenario : ShopifyBody :=
  ⟨some [itemPack2Qty2], some "1001", none, some "client@example.com", none⟩

def reqScenario : Req :=
  ⟨"raw-scenario", some bodyScenario, some "orders/paid", some "wh-scenario", none⟩

/-- A relevant line whose variant label (`10 Plaques`) resolves to no
supported pack size. -/
def itemNoPack : LineItem :=
  ⟨some "10 Plaques", none, some 1, none, some "li_1", none,
    some [(some "google_business_url", some "https://g.page/r/XYZ/review")]⟩

def bodyNoPack : ShopifyBody :=
  ⟨some [itemNoPack], some "1002", none, some "c@x.fr", none⟩

def reqNoPack : Req :=
  ⟨"raw-nopack", some bodyNoPack, some "orders/paid", some "wh-nopack", none⟩

/-- quantity = 3, variant `2 Plaques` (pack size 2): 6 units. -/
def itemQty3Pack2 : LineItem :=
  ⟨some "2 Plaques", none, some 3, none, some "li_9", none,
    some [(some "google_business_url", some "https://g.page/r/Q/review")]⟩

def bodyUnits : ShopifyBody :=
  ⟨some [itemQty3Pack2], some "1003", none, some "c@x.fr", none⟩

def reqUnits : Req :=
  ⟨"raw-units", some bodyUnits, some "orders/paid", some "wh-units", none⟩

/-- A relevant line with `quantity = 0` present and a positive
`current_quantity = 4`. -/
def itemZeroQty : LineItem :=
  ⟨some "1 Plaque", none, some 0, some 4, some "li_8", none,
    some [(some "google_business_url", some "https://g.page/r/Z/review")]⟩

/-- A fully successful single-plate event (order `1009`). -/
def itemOnePlate : LineItem :=
  ⟨some "1 Plaque", none, some 1, none, some "li_91", none,
    some [(some "google_business_url", some "https://g.page/r/OK/review")]⟩

def bodyFinalize : ShopifyBody :=
  ⟨some [itemOnePlate], some "1009", none, some "c@x.fr", none⟩

def reqFinalize : Req :=
  ⟨"raw-finalize", some bodyFinalize, some "orders/paid", some "wh-finalize", none⟩

/-- A request whose payload is irrelevant because processing stops at the
signature gate (no signature header supplied). -/
def reqNoSigHeader : Req :=
  ⟨"raw-nosig", some bodyScenario, some "orders/paid", some "wh-nosig", none⟩

/-- An insert failure that is not a uniqueness violation — no Mongo error
code, a connection-layer message — whose text happens to contain the
substring "already exists". -/
def errLookalike : JsError :=
  ⟨none, some "Connection pool: socket already exists for host", none, none,
    none, "Error"⟩

/-- Gate-passing request used to exercise the registration step with an
injected insert failure. -/
def reqTen : Req :=
  ⟨"raw-ten", some bodyScenario, some "orders/paid", some "wh-ten", none⟩

/-- Gate-passing request for the replay scenario. -/
def reqReplay : Req :=
  ⟨"raw-replay", some bodyScenario, some "orders/paid", some "wh-replay", none⟩

/-- Decidable equality for `Except` outcomes, needed to evaluate
`extractGroups` results on concrete inputs. -/
instance {e a : Type} [DecidableEq e] [DecidableEq a] : DecidableEq (Except e a) := fun x y =>
  match x, y with
  | .error u, .error v => decidable_of_iff (u = v) (by simp)
  | .ok u, .ok v => decidable_of_iff (u = v) (by simp)
  | .error _, .ok _ => .isFalse (by simp)
  | .ok _, .error _ => .isFalse (by simp)

/-! ## Helper lemmas -/

theorem getPackSize_allowed (item : LineItem) (p : Nat)
    (h : getPackSize item = some p) :
    (p = 1 ∨ p = 2 ∨ p = 5) ∧ packScan true (packHay item).data = some p := by
  unfold getPackSize at h
  rcases hscan : packScan true (packHay item).data with _ | n <;>
    rw [hscan] at h <;> dsimp only at h
  · exact absurd h (by simp)
  · by_cases h1 : n = 1 ∨ n = 2 ∨ n = 5
    · have hc : (decide (n = 1) || decide (n = 2) || decide (n = 5)) = true := by
        rcases h1 with h1 | h1 | h1 <;> simp [h1]
      rw [if_pos hc] at h
      injection h with h'
      subst h'
      exact ⟨h1, rfl⟩
    · have hc : (decide (n = 1) || decide (n = 2) || decide (n = 5)) = false := by
        push_neg at h1
        simp [h1.1, h1.2.1, h1.2.2]
      rw [hc] at h
      simp at h

/-! ## Claim theorems -/

/-- C6: pack resolution returns a size only when the `<integer> <unit-word>`
pattern matches with the integer in the allow-list {1,2,5}; any other
integer or no match is unresolved.  `blanc / 5 Plaques` resolves to 5, a
label with no recognizable count resolves to unresolved, and `10 Plaques`
resolves to unresolved. -/
theorem C6_pack_resolution :
    (∀ (item : LineItem) (p : Nat), getPackSize item = some p →
      packScan true (packHay item).data = some p ∧ (p = 1 ∨ p = 2 ∨ p = 5))
    ∧ getPackSize ⟨some "blanc / 5 Plaques", none, none, none, none, none, none⟩
        = some 5
    ∧ getPackSize ⟨some "Standard", some "Plaque NFC sur mesure", none, none,
        none, none, none⟩ = none
    ∧ getPackSize ⟨some "10 Plaques", none, none, none, none, none, none⟩
        = none :=
  ⟨fun item p h =>
      ⟨(getPackSize_allowed item p h).2, (getPackSize_allowed item p h).1⟩,
    by decide, by decide, by decide⟩

/-- Witness for C6 at the concrete label `blanc / 5 Plaques`. -/
theorem C6_pack_resolution_witness :
    packScan true
        (packHay ⟨some "blanc / 5 Plaques", none, none, none, none, none,
          none⟩).data = some 5
    ∧ (5 = 1 ∨ 5 = 2 ∨ 5 = 5) :=
  C6_pack_resolution.1
    ⟨some "blanc / 5 Plaques", none, none, none, none, none, none⟩ 5 (by decide)

/-- C4: every extracted group's units are `quantity × packSize` with the
pack size resolved (strictly in {1,2,5}, never defaulted); concretely,
quantity 3 with pack size 2 yields 6 plates with unit indices 0 through 5. -/
theorem C4_units_computation :
    (∀ (items : List LineItem) (gs : List LineGroup),
      extractGroupsList items = Except.ok gs →
      ∀ g ∈ gs, ∃ item ∈ items, ∃ p : Nat,
        getPackSize item = some p ∧ (p = 1 ∨ p = 2 ∨ p = 5) ∧
        g.units = jsQuantity item * (p : Int))
    ∧ (shopifyOrdersPaidWebhook cfgNoVerify noInject reqUnits emptyDB).2.plates.map
        (fun p => p.sourceKey)
      = ["1003|li_9|0", "1003|li_9|1", "1003|li_9|2", "1003|li_9|3",
         "1003|li_9|4", "1003|li_9|5"] := by
  constructor
  · intro items
    induction items with
    | nil =>
      intro gs h g hg
      simp [extractGroupsList] at h
      subst h
      simp at hg
    | cons item rest ih =>
      intro gs h g hg
      simp only [extractGroupsList] at h
      split at h
      · obtain ⟨it, hit, hrest⟩ := ih gs h g hg
        exact ⟨it, List.mem_cons_of_mem _ hit, hrest⟩
      · split at h
        · simp at h
        · rename_i reviewUrl hurl packSize hpack
          split at h
          · obtain ⟨it, hit, hrest⟩ := ih gs h g hg
            exact ⟨it, List.mem_cons_of_mem _ hit, hrest⟩
          · split at h
            · simp at h
            · rename_i gs' hgs'
              injection h with h
              subst h
              rcases List.mem_cons.mp hg with hgeq | hgmem
              · subst hgeq
                exact ⟨item, List.mem_cons_self _ _,
                  packSize, hpack, (getPackSize_allowed item packSize hpack).1,
                  rfl⟩
              · obtain ⟨it, hit, hrest⟩ := ih gs' hgs' g hgmem
                exact ⟨it, List.mem_cons_of_mem _ hit, hrest⟩
  · decide

/-- Witness for C4 at the concrete quantity-3 / `2 Plaques` line item. -/
theorem C4_units_computation_witness :
    ∃ item ∈ [itemQty3Pack2], ∃ p : Nat,
      getPackSize item = some p ∧ (p = 1 ∨ p = 2 ∨ p = 5) ∧
      (LineGroup.mk "https://g.page/r/Q/review" 6 "li_9").units
        = jsQuantity item * (p : Int) :=
  C4_units_computation.1 [itemQty3Pack2]
    [⟨"https://g.page/r/Q/review", 6, "li_9"⟩] (by decide)
    ⟨"https://g.page/r/Q/review", 6, "li_9"⟩ (by simp)

/-- C8 counterexample: a line with `quantity = 0` present and positive
`current_quantity = 4` uses the default 1, not the alternate 4 — `??` only
falls through on nullish values, so the claim's "quantity=0 uses the
alternate value" is false on the code. -/
theorem C8_counterexample :
    jsQuantity itemZeroQty = 1 ∧ ¬ (jsQuantity itemZeroQty = 4)
    ∧ extractGroupsList [itemZeroQty]
      = Except.ok [⟨"https://g.page/r/Z/review", 1, "li_8"⟩] := by
  decide

/-- C8 (amended): the quantity comes from the `quantity` field whenever it
is present (clamped to 1 when non-positive); `current_quantity` is
consulted only when `quantity` is nullish; 1 is the default when both are
nullish. -/
theorem C8_quantity_derivation :
    (∀ (item : LineItem) (q : Int), item.quantity = some q →
      jsQuantity item = if 0 < q then q else 1)
    ∧ (∀ (item : LineItem) (c : Int), item.quantity = none →
      item.current_quantity = some c →
      jsQuantity item = if 0 < c then c else 1)
    ∧ (∀ item : LineItem, item.quantity = none → item.current_quantity = none →
      jsQuantity item = 1) := by
  refine ⟨?_, ?_, ?_⟩ <;> intros <;> simp_all [jsQuantity]

/-- Witness for C8 (amended) at the quantity-0 line item. -/
theorem C8_quantity_derivation_witness :
    jsQuantity itemZeroQty = if 0 < (0 : Int) then (0 : Int) else 1 :=
  C8_quantity_derivation.1 itemZeroQty 0 rfl

/-- C9: on the fully successful run the DeliveryRecord is transitioned to
`processed` with the business order id recorded, and the finalize write
carries `createdPlatesCount` — a key the persisted `webhook-events` schema
does not declare, so the count has nowhere to persist. -/
theorem C9_finalize_contents :
    (shopifyOrdersPaidWebhook cfgNoVerify noInject reqFinalize emptyDB).1 = 200
    ∧ (shopifyOrdersPaidWebhook cfgNoVerify noInject reqFinalize emptyDB).2.events.map
        (fun ev => (ev.status, ev.orderNumber))
      = [(EvStatus.processed, some "1009")]
    ∧ (∀ (onum : String) (count : Nat),
        ((finalizeMark onum count).keys.contains "createdPlatesCount") = true)
    ∧ webhookEventsFieldNames.contains "createdPlatesCount" = false := by
  refine ⟨by decide, by decide, fun onum count => rfl, by decide⟩

/-- C3 (actual behavior): a relevant line whose label resolves to no pack
size makes `extractGroups` throw `NO PACK SIZE`; the handler calls it
outside any try/catch, so the exception escapes, the caller receives 500
(retryable), the DeliveryRecord stays at `received` (never `failed`), and
zero plates exist. -/
theorem C3_unresolved_pack_actual :
    extractGroups bodyNoPack = Except.error "NO PACK SIZE"
    ∧ shopifyOrdersPaidWebhook cfgNoVerify noInject reqNoPack emptyDB
      = (500, ⟨[⟨0, "shopify", "wh-nopack", "orders/paid", EvStatus.received,
          none, none⟩], [], [], 1⟩) := by
  decide

/-- C5 counterexample: the §8 scenario (quantity 2, variant `2 Plaques`)
does not produce two plate rows — units = quantity × packSize = 4. -/
theorem C5_counterexample :
    ¬ ((shopifyOrdersPaidWebhook cfgNoVerify noInject reqScenario
        emptyDB).2.plates.length = 2) := by
  decide

/-- C5 (amended): the scenario yields one Order("1001", activated = true)
and exactly four plate rows with sourceKeys `1001|li_77|0` … `1001|li_77|3`,
all pointing to the validated destination URL. -/
theorem C5_scenario_four_plates :
    (shopifyOrdersPaidWebhook cfgNoVerify noInject reqScenario emptyDB).1 = 200
    ∧ (shopifyOrdersPaidWebhook cfgNoVerify noInject reqScenario
        emptyDB).2.orders.map (fun o => (o.orderNumber, o.activated))
      = [("1001", true)]
    ∧ (shopifyOrdersPaidWebhook cfgNoVerify noInject reqScenario
        emptyDB).2.plates.map (fun p => (p.sourceKey, p.googleReviewUrl))
      = [("1001|li_77|0", "https://g.page/r/ABC123/review"),
         ("1001|li_77|1", "https://g.page/r/ABC123/review"),
         ("1001|li_77|2", "https://g.page/r/ABC123/review"),
         ("1001|li_77|3", "https://g.page/r/ABC123/review")] := by
  refine ⟨by decide, by decide, by decide⟩

/-- C7 counterexample: with verification enabled and the shared secret
absent, a request *without* a signature header is rejected 401 (the falsy
header short-circuits before the secret check) — not the claimed
ConfigurationError / 500. -/
theorem C7_counterexample :
    checkShopifySignature none hmacConst "raw-nosig" none
      = SigResult.verdict false
    ∧ cfgNoSecret.verifySignature = true
    ∧ shopifyOrdersPaidWebhook cfgNoSecret noInject reqNoSigHeader emptyDB
      = (401, emptyDB) := by
  decide

/-- C7 (amended): with verification enabled and the shared secret absent,
every request that *does* carry a signature value makes the signature check
throw the ConfigurationError and the caller receives 500 (retryable),
never 401, with no state touched. -/
theorem C7_missing_secret_500 :
    ∀ (cfg : Config) (req : Req) (db : DB),
      truthyOptStr cfg.secret = false →
      cfg.verifySignature = true →
      req.topicHeader = some "orders/paid" →
      truthyOptStr req.webhookIdHeader = true →
      truthyOptStr req.hmacHeader = true →
      checkShopifySignature cfg.secret cfg.hmacFn req.rawBody req.hmacHeader
        = SigResult.configError "SHOPIFY_WEBHOOK_SECRET missing"
      ∧ shopifyOrdersPaidWebhook cfg noInject req db = (500, db) := by
  intro cfg req db hsec hver htopic hwid hhmac
  have hcheck : checkShopifySignature cfg.secret cfg.hmacFn req.rawBody
      req.hmacHeader = SigResult.configError "SHOPIFY_WEBHOOK_SECRET missing" := by
    unfold checkShopifySignature
    rw [hhmac, hsec]
    simp
  refine ⟨hcheck, ?_⟩
  unfold shopifyOrdersPaidWebhook handlerCore
  rw [htopic]
  simp [hwid, hver, hcheck]

/-- Witness for C7 (amended) at a concrete signed request. -/
theorem C7_missing_secret_500_witness :
    checkShopifySignature cfgNoSecret.secret cfgNoSecret.hmacFn "raw-w"
      (some "sig") = SigResult.configError "SHOPIFY_WEBHOOK_SECRET missing"
    ∧ shopifyOrdersPaidWebhook cfgNoSecret noInject
        ⟨"raw-w", none, some "orders/paid", some "wh-w", some "sig"⟩ emptyDB
      = (500, emptyDB) :=
  C7_missing_secret_500 cfgNoSecret
    ⟨"raw-w", none, some "orders/paid", some "wh-w", some "sig"⟩ emptyDB
    rfl rfl rfl (by decide) (by decide)

theorem sourceKeyFor_injective (onum lid : String) :
    Function.Injective (sourceKeyFor onum lid) := by
  intro i j hij
  unfold sourceKeyFor at hij
  have hdata := congrArg String.data hij
  simp only [String.data_append, List.append_assoc] at hdata
  have h2 : (natToStr i).data = (natToStr j).data := by
    simpa using hdata
  have hi := digitsVal_natToStr i
  rw [h2, digitsVal_natToStr j] at hi
  exact hi.symm

theorem mongoDupErr_isDuplicate (key : String) :
    isDuplicateKeyError (mongoDupErr key) = true := by
  simp [isDuplicateKeyError, mongoDupErr]

theorem createPlate_ok (db : DB) (inj : String → Option JsError) (oid : Nat)
    (key url : String) (db' : DB)
    (h : createPlate db inj oid key url = .ok db') :
    db'.events = db.events ∧ db'.orders = db.orders ∧
    db'.plates = db.plates ++
      [⟨db.nextId, slugFor db.nextId, oid, url, "activated", key⟩] ∧
    db'.nextId = db.nextId + 1 := by
  unfold createPlate at h
  split at h
  · simp at h
  · split at h
    · simp at h
    · injection h with h
      subst h
      exact ⟨rfl, rfl, rfl, rfl⟩

theorem unitFold_fresh (oid : Nat) (onum lid url : String) :
    ∀ (L : List Nat) (db : DB) (keys created : List String),
      (L.map (sourceKeyFor onum lid)).Nodup →
      (∀ i ∈ L, sourceKeyFor onum lid i ∉ keys) →
      (∀ i ∈ L, ∀ p ∈ db.plates, p.sourceKey ≠ sourceKeyFor onum lid i) →
      ∃ db' : DB,
        unitFold (fun _ => none) oid onum lid url L db keys created
          = .proceed db' (keys ++ L.map (sourceKeyFor onum lid))
              (created ++ L.map (sourceKeyFor onum lid))
        ∧ db'.plates.map (fun p => (p.sourceKey, p.googleReviewUrl, p.orderId))
            = db.plates.map (fun p => (p.sourceKey, p.googleReviewUrl, p.orderId))
              ++ L.map (fun i => (sourceKeyFor onum lid i, url, oid))
        ∧ db'.events = db.events ∧ db'.orders = db.orders := by
  intro L
  induction L with
  | nil =>
    intro db keys created _ _ _
    exact ⟨db, by simp [unitFold]⟩
  | cons i is ih =>
    intro db keys created hnd hk hp
    have hhead : sourceKeyFor onum lid i ∉ List.map (sourceKeyFor onum lid) is
        ∧ (List.map (sourceKeyFor onum lid) is).Nodup := by
      rw [List.map_cons, List.nodup_cons] at hnd
      exact hnd
    have hkc : keys.contains (sourceKeyFor onum lid i) = false := by
      simp [hk i (List.mem_cons_self i is)]
    have hany : db.plates.any
        (fun p => p.sourceKey == sourceKeyFor onum lid i) = false := by
      simp only [List.any_eq_false]
      intro p hpmem
      simp [hp i (List.mem_cons_self i is) p hpmem]
    have hcreate : createPlate db (fun _ => none) oid
        (sourceKeyFor onum lid i) url
        = .ok { db with
                plates := db.plates ++
                  [⟨db.nextId, slugFor db.nextId, oid, url, "activated",
                    sourceKeyFor onum lid i⟩],
                nextId := db.nextId + 1 } := by
      unfold createPlate
      rw [hany]
      rfl
    have hstep : unitFold (fun _ => none) oid onum lid url (i :: is) db keys
        created
        = unitFold (fun _ => none) oid onum lid url is
            { db with
              plates := db.plates ++
                [⟨db.nextId, slugFor db.nextId, oid, url, "activated",
                  sourceKeyFor onum lid i⟩],
              nextId := db.nextId + 1 }
            (keys ++ [sourceKeyFor onum lid i])
            (created ++ [sourceKeyFor onum lid i]) := by
      rw [unitFold, hkc]
      simp only [Bool.false_eq_true, if_false, hcreate]
    set db2 : DB :=
      { db with
        plates := db.plates ++
          [⟨db.nextId, slugFor db.nextId, oid, url, "activated",
            sourceKeyFor onum lid i⟩],
        nextId := db.nextId + 1 } with hdb2
    have hk2 : ∀ j ∈ is, sourceKeyFor onum lid j
        ∉ keys ++ [sourceKeyFor onum lid i] := by
      intro j hj hmem
      rcases List.mem_append.mp hmem with hmem | hmem
      · exact hk j (List.mem_cons_of_mem i hj) hmem
      · have : sourceKeyFor onum lid j = sourceKeyFor onum lid i := by
          simpa using hmem
        exact hhead.1 (this ▸ List.mem_map_of_mem (sourceKeyFor onum lid) hj)
    have hp2 : ∀ j ∈ is, ∀ p ∈ db2.plates,
        p.sourceKey ≠ sourceKeyFor onum lid j := by
      intro j hj p hpmem
      rcases List.mem_append.mp hpmem with hmem | hmem
      · exact hp j (List.mem_cons_of_mem i hj) p hmem
      · have hpi : p.sourceKey = sourceKeyFor onum lid i := by
          rcases List.mem_singleton.mp hmem with rfl
          rfl
        rw [hpi]
        intro hcontra
        exact hhead.1 (hcontra ▸ List.mem_map_of_mem (sourceKeyFor onum lid) hj)
    obtain ⟨db', hrun, hmap, hev, hord⟩ :=
      ih db2 (keys ++ [sourceKeyFor onum lid i])
        (created ++ [sourceKeyFor onum lid i]) hhead.2 hk2 hp2
    refine ⟨db', ?_, ?_, ?_, ?_⟩
    · rw [hstep, hrun]
      simp
    · rw [hmap, hdb2]
      simp
    · rw [hev, hdb2]
    · rw [hord, hdb2]

theorem unitFold_allPresent (oid : Nat) (onum lid url : String) :
    ∀ (L : List Nat) (db : DB) (keys created : List String),
      (∀ i ∈ L, sourceKeyFor onum lid i ∈ keys ∨
        ∃ p ∈ db.plates, p.sourceKey = sourceKeyFor onum lid i) →
      unitFold (fun _ => none) oid onum lid url L db keys created
        = .proceed db keys created := by
  intro L
  induction L with
  | nil => intro db keys created _; rfl
  | cons i is ih =>
    intro db keys created hpr
    by_cases hk : sourceKeyFor onum lid i ∈ keys
    · have hkc : keys.contains (sourceKeyFor onum lid i) = true := by simp [hk]
      rw [unitFold, hkc]
      simp only [if_true]
      exact ih db keys created fun j hj => hpr j (List.mem_cons_of_mem i hj)
    · have hkc : keys.contains (sourceKeyFor onum lid i) = false := by simp [hk]
      rcases hpr i (List.mem_cons_self i is) with hmem | ⟨p, hpmem, hpkey⟩
      · exact absurd hmem hk
      · have hany : db.plates.any
            (fun q => q.sourceKey == sourceKeyFor onum lid i) = true := by
          simp only [List.any_eq_true]
          exact ⟨p, hpmem, by simp [hpkey]⟩
        have hcreate : createPlate db (fun _ => none) oid
            (sourceKeyFor onum lid i) url
            = .err (mongoDupErr (sourceKeyFor onum lid i)) := by
          unfold createPlate
          rw [hany]
          rfl
        rw [unitFold, hkc]
        simp only [Bool.false_eq_true, if_false, hcreate,
          mongoDupErr_isDuplicate, if_true]
        exact ih db keys created fun j hj => hpr j (List.mem_cons_of_mem i hj)

theorem unitFold_dup_swallowed (inj : String → Option JsError) (oid : Nat)
    (onum lid url : String) (i : Nat) (is : List Nat) (db : DB)
    (keys created : List String) (e : JsError)
    (hk : sourceKeyFor onum lid i ∉ keys)
    (hinj : inj (sourceKeyFor onum lid i) = some e)
    (hdup : isDuplicateKeyError e = true) :
    unitFold inj oid onum lid url (i :: is) db keys created
      = unitFold inj oid onum lid url is db keys created := by
  have hkc : keys.contains (sourceKeyFor onum lid i) = false := by simp [hk]
  have hcreate : createPlate db inj oid (sourceKeyFor onum lid i) url
      = .err e := by
    unfold createPlate
    rw [hinj]
  rw [unitFold, hkc]
  simp only [Bool.false_eq_true, if_false, hcreate, hdup, if_true]

theorem unitFold_other_error_fatal (inj : String → Option JsError) (oid : Nat)
    (onum lid url : String) (i : Nat) (is : List Nat) (db : DB)
    (keys created : List String) (e : JsError)
    (hk : sourceKeyFor onum lid i ∉ keys)
    (hinj : inj (sourceKeyFor onum lid i) = some e)
    (hdup : isDuplicateKeyError e = false) :
    unitFold inj oid onum lid url (i :: is) db keys created
      = .thrown e db := by
  have hkc : keys.contains (sourceKeyFor onum lid i) = false := by simp [hk]
  have hcreate : createPlate db inj oid (sourceKeyFor onum lid i) url
      = .err e := by
    unfold createPlate
    rw [hinj]
  rw [unitFold, hkc]
  simp only [Bool.false_eq_true, if_false, hcreate, hdup, if_false]

theorem groupFold_allPresent (eid oid : Nat) (onum : String) :
    ∀ (gs : List LineGroup) (db : DB) (keys created : List String),
      (∀ g ∈ gs, ¬ (g.lineItemId = "")
        ∧ (normalizeGoogleReviewLinkStrict g.reviewUrl).isSome = true
        ∧ ∀ i ∈ List.range g.units.toNat,
            sourceKeyFor onum g.lineItemId i ∈ keys ∨
            ∃ p ∈ db.plates, p.sourceKey = sourceKeyFor onum g.lineItemId i) →
      groupFold (fun _ => none) eid oid onum gs db keys created
        = .proceed db keys created := by
  intro gs
  induction gs with
  | nil => intro db keys created _; rfl
  | cons g gs ih =>
    intro db keys created hpr
    obtain ⟨hid, hsome, hall⟩ := hpr g (List.mem_cons_self g gs)
    have hidc : (g.lineItemId == "") = false := by simp [hid]
    rcases hnorm : normalizeGoogleReviewLinkStrict g.reviewUrl with _ | url
    · rw [hnorm] at hsome
      simp at hsome
    · rw [groupFold, hidc]
      simp only [Bool.false_eq_true, if_false, hnorm]
      rw [unitFold_allPresent oid onum g.lineItemId url
        (List.range g.units.toNat) db keys created hall]
      exact ih db keys created fun g' hg' => hpr g' (List.mem_cons_of_mem g hg')

/-- C1: plate generation is idempotent per sourceKey.
(a) On a fresh pass, each unit index `i < units` of a group yields exactly
the plate keyed `orderNumber|lineItemId|i`;
(b) a second pass of the generation step over the same order and groups
creates no plate row — present sourceKeys are skipped via the snapshot and
keys already in storage are rejected by the unique index with the rejection
swallowed;
(c) a creation error classified as a uniqueness violation is swallowed
silently and the loop continues unchanged;
(d) any other creation error is fatal (rethrown). -/
theorem C1_plate_generation_idempotent :
    (∀ (onum lid url : String) (oid units : Nat) (db : DB)
        (keys created : List String),
      (∀ i, i < units → sourceKeyFor onum lid i ∉ keys) →
      (∀ i, i < units → ∀ p ∈ db.plates,
        p.sourceKey ≠ sourceKeyFor onum lid i) →
      ∃ db' : DB,
        unitFold (fun _ => none) oid onum lid url (List.range units) db keys
            created
          = .proceed db'
              (keys ++ (List.range units).map (sourceKeyFor onum lid))
              (created ++ (List.range units).map (sourceKeyFor onum lid))
        ∧ db'.plates.map (fun p => (p.sourceKey, p.googleReviewUrl, p.orderId))
            = db.plates.map (fun p => (p.sourceKey, p.googleReviewUrl, p.orderId))
              ++ (List.range units).map
                  (fun i => (sourceKeyFor onum lid i, url, oid)))
    ∧ (∀ (eid oid : Nat) (onum : String) (gs : List LineGroup) (db : DB)
        (keys created : List String),
      (∀ g ∈ gs, ¬ (g.lineItemId = "")
        ∧ (normalizeGoogleReviewLinkStrict g.reviewUrl).isSome = true
        ∧ ∀ i ∈ List.range g.units.toNat,
            sourceKeyFor onum g.lineItemId i ∈ keys ∨
            ∃ p ∈ db.plates, p.sourceKey = sourceKeyFor onum g.lineItemId i) →
      groupFold (fun _ => none) eid oid onum gs db keys created
        = .proceed db keys created)
    ∧ (∀ (inj : String → Option JsError) (oid : Nat) (onum lid url : String)
        (i : Nat) (is : List Nat) (db : DB) (keys created : List String)
        (e : JsError),
      sourceKeyFor onum lid i ∉ keys →
      inj (sourceKeyFor onum lid i) = some e →
      isDuplicateKeyError e = true →
      unitFold inj oid onum lid url (i :: is) db keys created
        = unitFold inj oid onum lid url is db keys created)
    ∧ (∀ (inj : String → Option JsError) (oid : Nat) (onum lid url : String)
        (i : Nat) (is : List Nat) (db : DB) (keys created : List String)
        (e : JsError),
      sourceKeyFor onum lid i ∉ keys →
      inj (sourceKeyFor onum lid i) = some e →
      isDuplicateKeyError e = false →
      unitFold inj oid onum lid url (i :: is) db keys created
        = .thrown e db) := by
  refine ⟨?_, groupFold_allPresent, unitFold_dup_swallowed,
    unitFold_other_error_fatal⟩
  intro onum lid url oid units db keys created hk hp
  obtain ⟨db', hrun, hmap, _, _⟩ :=
    unitFold_fresh oid onum lid url (List.range units) db keys created
      ((List.nodup_range units).map (sourceKeyFor_injective onum lid))
      (fun i hi => hk i (List.mem_range.mp hi))
      (fun i hi => hp i (List.mem_range.mp hi))
  exact ⟨db', hrun, hmap⟩

/-- Witness for C1 at a concrete 2-unit group on an empty store. -/
theorem C1_plate_generation_idempotent_witness :
    ∃ db' : DB,
      unitFold (fun _ => none) 7 "1001" "li_77" "u" (List.range 2) emptyDB [] []
        = .proceed db' ([] ++ (List.range 2).map (sourceKeyFor "1001" "li_77"))
            ([] ++ (List.range 2).map (sourceKeyFor "1001" "li_77"))
      ∧ db'.plates.map (fun p => (p.sourceKey, p.googleReviewUrl, p.orderId))
          = emptyDB.plates.map (fun p => (p.sourceKey, p.googleReviewUrl, p.orderId))
            ++ (List.range 2).map
                (fun i => (sourceKeyFor "1001" "li_77" i, "u", 7)) :=
  C1_plate_generation_idempotent.1 "1001" "li_77" "u" 7 2 emptyDB [] []
    (fun i _ => by simp) (fun i _ p hp => by simp [emptyDB] at hp)

theorem markEvent_eventWids (db : DB) (eid : Nat) (d : MarkData) :
    eventWids (markEvent db eid d) = eventWids db := by
  unfold eventWids markEvent
  simp only [List.map_map]
  congr 1
  funext ev
  simp only [Function.comp_apply]
  by_cases h : (ev.id == eid) = true
  · rw [if_pos h]
  · rw [if_neg h]

theorem unitFold_db_preserved (inj : String → Option JsError) (oid : Nat)
    (onum lid url : String) :
    ∀ (L : List Nat) (db : DB) (keys created : List String),
      ((unitFold inj oid onum lid url L db keys created).db.events = db.events)
      ∧ ((unitFold inj oid onum lid url L db keys created).db.orders
          = db.orders) := by
  intro L
  induction L with
  | nil => intro db keys created; exact ⟨rfl, rfl⟩
  | cons i is ih =>
    intro db keys created
    rw [unitFold]
    split
    · exact ih db keys created
    · split
      · rename_i db2 hc
        obtain ⟨hev, hord, _, _⟩ :=
          createPlate_ok db inj oid (sourceKeyFor onum lid i) url db2 hc
        obtain ⟨ihe, iho⟩ :=
          ih db2 (keys ++ [sourceKeyFor onum lid i])
            (created ++ [sourceKeyFor onum lid i])
        exact ⟨ihe.trans hev, iho.trans hord⟩
      · rename_i e hc
        split
        · exact ih db keys created
        · exact ⟨rfl, rfl⟩

theorem groupFold_eventWids (inj : String → Option JsError) (eid oid : Nat)
    (onum : String) :
    ∀ (gs : List LineGroup) (db : DB) (keys created : List String),
      eventWids ((groupFold inj eid oid onum gs db keys created).db)
        = eventWids db := by
  intro gs
  induction gs with
  | nil => intro db keys created; rfl
  | cons g gs ih =>
    intro db keys created
    rw [groupFold]
    split
    · simp only [LoopRes.db]
      exact markEvent_eventWids db eid _
    · split
      · simp only [LoopRes.db]
        exact markEvent_eventWids db eid _
      · rename_i url hnorm
        rcases hu : unitFold inj oid onum g.lineItemId url
            (List.range g.units.toNat) db keys created with
          ⟨db2, keys2, created2⟩ | ⟨db2, st⟩ | ⟨e, db2⟩
        · show eventWids (groupFold inj eid oid onum gs db2 keys2 created2).db
            = eventWids db
          have hpres := (unitFold_db_preserved inj oid onum g.lineItemId url
            (List.range g.units.toNat) db keys created).1
          rw [hu] at hpres
          rw [ih db2 keys2 created2]
          exact congrArg (List.map fun ev => ev.webhookId) hpres
        · show eventWids db2 = eventWids db
          have hpres := (unitFold_db_preserved inj oid onum g.lineItemId url
            (List.range g.units.toNat) db keys created).1
          rw [hu] at hpres
          exact congrArg (List.map fun ev => ev.webhookId) hpres
        · show eventWids db2 = eventWids db
          have hpres := (unitFold_db_preserved inj oid onum g.lineItemId url
            (List.range g.units.toNat) db keys created).1
          rw [hu] at hpres
          exact congrArg (List.map fun ev => ev.webhookId) hpres

theorem any_wid_eq_eventWids (db : DB) (wid : String) :
    db.events.any (fun ev => ev.webhookId == wid)
      = (eventWids db).any (fun w => w == wid) := by
  unfold eventWids
  induction db.events with
  | nil => rfl
  | cons a as ih => simp [List.any_cons, ih]

theorem snd_run_eq_runDB (cfg : Config) (inj : Inject) (req : Req) (db : DB) :
    (shopifyOrdersPaidWebhook cfg inj req db).2
      = runDB (handlerCore cfg inj req db) := by
  unfold shopifyOrdersPaidWebhook runDB
  rcases handlerCore cfg inj req db with ⟨e, db2⟩ | ⟨st, db2⟩ <;> rfl

theorem handlerCore_regError_200 (cfg : Config) (inj : Inject) (req : Req)
    (db : DB) (e : JsError)
    (htopic : req.topicHeader = some "orders/paid")
    (hwid : truthyOptStr req.webhookIdHeader = true)
    (hsig : cfg.verifySignature = false ∨
      checkShopifySignature cfg.secret cfg.hmacFn req.rawBody req.hmacHeader
        = SigResult.verdict true)
    (hcreate : createWebhookEvent db inj.eventCreate
      (req.webhookIdHeader.getD "") (req.topicHeader.getD "")
      = .error e)
    (hdup : isDuplicateKeyError e = true) :
    handlerCore cfg inj req db = .ok (200, db) := by
  unfold handlerCore
  split
  · rename_i hcond
    rw [htopic] at hcond
    simp at hcond
  · split
    · rename_i hcond
      rw [hwid] at hcond
      simp at hcond
    · split
      · rename_i hv
        rcases hsig with hs | hs
        · simp [hv] at hs
        · rw [hs, hcreate]
          dsimp only
          rw [hdup]
          exact rfl
      · rw [hcreate]
        dsimp only
        rw [hdup]
        exact rfl

theorem handlerCore_dup_200 (cfg : Config) (req : Req) (db : DB)
    (htopic : req.topicHeader = some "orders/paid")
    (hwid : truthyOptStr req.webhookIdHeader = true)
    (hsig : cfg.verifySignature = false ∨
      checkShopifySignature cfg.secret cfg.hmacFn req.rawBody req.hmacHeader
        = SigResult.verdict true)
    (hdup : db.events.any
      (fun ev => ev.webhookId == req.webhookIdHeader.getD "") = true) :
    handlerCore cfg noInject req db = .ok (200, db) := by
  refine handlerCore_regError_200 cfg noInject req db
    (mongoDupErr (req.webhookIdHeader.getD "")) htopic hwid hsig ?_
    (mongoDupErr_isDuplicate _)
  show createWebhookEvent db none _ _ = _
  unfold createWebhookEvent
  rw [hdup]
  exact rfl

theorem any_wid_markEvent (db : DB) (eid : Nat) (d : MarkData) (wid : String) :
    (markEvent db eid d).events.any (fun ev => ev.webhookId == wid)
      = db.events.any (fun ev => ev.webhookId == wid) := by
  rw [any_wid_eq_eventWids, any_wid_eq_eventWids, markEvent_eventWids]

theorem any_wid_groupFold (inj : String → Option JsError) (eid oid : Nat)
    (onum : String) (gs : List LineGroup) (db : DB)
    (keys created : List String) (wid : String) :
    ((groupFold inj eid oid onum gs db keys created).db).events.any
        (fun ev => ev.webhookId == wid)
      = db.events.any (fun ev => ev.webhookId == wid) := by
  rw [any_wid_eq_eventWids, any_wid_eq_eventWids, groupFold_eventWids]

theorem any_wid_groupFold_res {inj : String → Option JsError} {eid oid : Nat}
    {onum : String} {gs : List LineGroup} {db : DB} {keys created : List String}
    {res : LoopRes} (wid : String)
    (heq : groupFold inj eid oid onum gs db keys created = res) :
    res.db.events.any (fun ev => ev.webhookId == wid)
      = db.events.any (fun ev => ev.webhookId == wid) := by
  rw [← heq]
  exact any_wid_groupFold inj eid oid onum gs db keys created wid

theorem any_wid_upsert (db : DB) (onum email wid : String) :
    ((upsertOrder db onum email).1).events.any (fun ev => ev.webhookId == wid)
      = db.events.any (fun ev => ev.webhookId == wid) := by
  unfold upsertOrder
  split <;> rfl

theorem handlerCore_registers_wid (cfg : Config) (req : Req) (db : DB)
    (htopic : req.topicHeader = some "orders/paid")
    (hwid : truthyOptStr req.webhookIdHeader = true)
    (hsig : cfg.verifySignature = false ∨
      checkShopifySignature cfg.secret cfg.hmacFn req.rawBody req.hmacHeader
        = SigResult.verdict true) :
    (runDB (handlerCore cfg noInject req db)).events.any
      (fun ev => ev.webhookId == req.webhookIdHeader.getD "") = true := by
  by_cases hdup : db.events.any
      (fun ev => ev.webhookId == req.webhookIdHeader.getD "") = true
  · rw [handlerCore_dup_200 cfg req db htopic hwid hsig hdup]
    exact hdup
  · rw [Bool.not_eq_true] at hdup
    have hcreate : createWebhookEvent db noInject.eventCreate
        (req.webhookIdHeader.getD "") (req.topicHeader.getD "")
        = .ok ({ db with
                  events := db.events ++
                    [⟨db.nextId, "shopify", req.webhookIdHeader.getD "",
                      req.topicHeader.getD "", .received, none, none⟩],
                  nextId := db.nextId + 1 }, db.nextId) := by
      show createWebhookEvent db none _ _ = _
      unfold createWebhookEvent
      rw [hdup]
      exact rfl
    have hw1 : ((db.events ++
        [⟨db.nextId, "shopify", req.webhookIdHeader.getD "",
          req.topicHeader.getD "", .received, none, none⟩] : List EventRow)).any
        (fun ev => ev.webhookId == req.webhookIdHeader.getD "") = true := by
      simp
    unfold handlerCore
    split
    · rename_i hcond
      rw [htopic] at hcond
      simp at hcond
    · split
      · rename_i hcond
        rw [hwid] at hcond
        simp at hcond
      · split
        · rename_i hv
          rcases hsig with hs | hs
          · simp [hv] at hs
          · rw [hs, hcreate]
            dsimp only
            split
            · simp only [runDB]
              rw [any_wid_markEvent]
              exact hw1
            · split
              · simp only [runDB]
                rw [any_wid_markEvent]
                exact hw1
              · split
                · simp only [runDB]
                  exact hw1
                · split
                  · simp only [runDB]
                    rw [any_wid_markEvent]
                    exact hw1
                  · split
                    · simp only [runDB]
                      rw [any_wid_markEvent]
                      exact hw1
                    · split
                      · rename_i heq
                        simp only [runDB]
                        exact (any_wid_groupFold_res _ heq).trans ((any_wid_upsert _ _ _ _).trans hw1)
                      · rename_i heq
                        simp only [runDB]
                        exact (any_wid_groupFold_res _ heq).trans ((any_wid_upsert _ _ _ _).trans hw1)
                      · rename_i heq
                        simp only [runDB]
                        rw [any_wid_markEvent]
                        exact (any_wid_groupFold_res _ heq).trans ((any_wid_upsert _ _ _ _).trans hw1)
        · rw [hcreate]
          dsimp only
          split
          · simp only [runDB]
            rw [any_wid_markEvent]
            exact hw1
          · split
            · simp only [runDB]
              rw [any_wid_markEvent]
              exact hw1
            · split
              · simp only [runDB]
                exact hw1
              · split
                · simp only [runDB]
                  rw [any_wid_markEvent]
                  exact hw1
                · split
                  · simp only [runDB]
                    rw [any_wid_markEvent]
                    exact hw1
                  · split
                    · rename_i heq
                      simp only [runDB]
                      exact (any_wid_groupFold_res _ heq).trans ((any_wid_upsert _ _ _ _).trans hw1)
                    · rename_i heq
                      simp only [runDB]
                      exact (any_wid_groupFold_res _ heq).trans ((any_wid_upsert _ _ _ _).trans hw1)
                    · rename_i heq
                      simp only [runDB]
                      rw [any_wid_markEvent]
                      exact (any_wid_groupFold_res _ heq).trans ((any_wid_upsert _ _ _ _).trans hw1)

/-- C2: replay suppression.  After any completed submission that passed the
header and signature gates, re-submitting the identical request finds the
registration insert rejected by the `webhookId` unique index with a
duplicate-key error, and the second submission returns 200 with the
database unchanged: no new DeliveryRecord, Order, or Plate row, no further
side effects. -/
theorem C2_replay_suppression :
    ∀ (cfg : Config) (req : Req) (db : DB),
      req.topicHeader = some "orders/paid" →
      truthyOptStr req.webhookIdHeader = true →
      (cfg.verifySignature = false ∨
        checkShopifySignature cfg.secret cfg.hmacFn req.rawBody req.hmacHeader
          = SigResult.verdict true) →
      createWebhookEvent (shopifyOrdersPaidWebhook cfg noInject req db).2 none
          (req.webhookIdHeader.getD "") (req.topicHeader.getD "")
        = Except.error (mongoDupErr (req.webhookIdHeader.getD ""))
      ∧ isDuplicateKeyError (mongoDupErr (req.webhookIdHeader.getD "")) = true
      ∧ shopifyOrdersPaidWebhook cfg noInject req
          (shopifyOrdersPaidWebhook cfg noInject req db).2
        = (200, (shopifyOrdersPaidWebhook cfg noInject req db).2) := by
  intro cfg req db htopic hwid hsig
  have hreg : (shopifyOrdersPaidWebhook cfg noInject req db).2.events.any
      (fun ev => ev.webhookId == req.webhookIdHeader.getD "") = true := by
    rw [snd_run_eq_runDB]
    exact handlerCore_registers_wid cfg req db htopic hwid hsig
  have hsecond : ∀ db2 : DB, db2.events.any
      (fun ev => ev.webhookId == req.webhookIdHeader.getD "") = true →
      shopifyOrdersPaidWebhook cfg noInject req db2 = (200, db2) := by
    intro db2 h2
    unfold shopifyOrdersPaidWebhook
    rw [handlerCore_dup_200 cfg req db2 htopic hwid hsig h2]
  refine ⟨?_, mongoDupErr_isDuplicate _, ?_⟩
  · unfold createWebhookEvent
    rw [hreg]
    exact rfl
  · exact hsecond _ hreg

/-- Witness for C2: the concrete replay request submitted twice. -/
theorem C2_replay_suppression_witness :
    createWebhookEvent
        (shopifyOrdersPaidWebhook cfgNoVerify noInject reqReplay emptyDB).2 none
        (reqReplay.webhookIdHeader.getD "") (reqReplay.topicHeader.getD "")
      = Except.error (mongoDupErr (reqReplay.webhookIdHeader.getD ""))
    ∧ isDuplicateKeyError (mongoDupErr (reqReplay.webhookIdHeader.getD ""))
      = true
    ∧ shopifyOrdersPaidWebhook cfgNoVerify noInject reqReplay
        (shopifyOrdersPaidWebhook cfgNoVerify noInject reqReplay emptyDB).2
      = (200, (shopifyOrdersPaidWebhook cfgNoVerify noInject reqReplay
          emptyDB).2) :=
  C2_replay_suppression cfgNoVerify reqReplay emptyDB rfl (by decide)
    (Or.inl (by decide))

/-- C10: duplicate-key classification is substring-based — true exactly for
error code 11000 or a lowercased message containing one of the five listed
substrings — and any registration insert failure so classified, genuine
uniqueness violation or not, makes the handler return 200 with nothing
persisted instead of a retryable 500. -/
theorem C10_duplicate_key_classification :
    (∀ e : JsError, isDuplicateKeyError e = true ↔
      (e.code = some 11000 ∨
        ∃ sub ∈ (["e11000", "duplicate", "unique", "already exists",
          "has already been taken"] : List String),
          jsIncludes (errText e) sub = true))
    ∧ (∀ (cfg : Config) (req : Req) (db : DB) (e : JsError),
      req.topicHeader = some "orders/paid" →
      truthyOptStr req.webhookIdHeader = true →
      (cfg.verifySignature = false ∨
        checkShopifySignature cfg.secret cfg.hmacFn req.rawBody req.hmacHeader
          = SigResult.verdict true) →
      isDuplicateKeyError e = true →
      shopifyOrdersPaidWebhook cfg ⟨some e, fun _ => none⟩ req db = (200, db))
    ∧ errLookalike.code = none
    ∧ isDuplicateKeyError errLookalike = true := by
  refine ⟨?_, ?_, rfl, by decide⟩
  · intro e
    unfold isDuplicateKeyError
    simp [beq_iff_eq]
    tauto
  · intro cfg req db e htopic hwid hsig hdup
    unfold shopifyOrdersPaidWebhook
    rw [handlerCore_regError_200 cfg ⟨some e, fun _ => none⟩ req db e htopic
      hwid hsig rfl hdup]

/-- Witness for C10 at the connection-layer look-alike error. -/
theorem C10_duplicate_key_classification_witness :
    shopifyOrdersPaidWebhook cfgNoVerify ⟨some errLookalike, fun _ => none⟩
      reqTen emptyDB = (200, emptyDB) :=
  C10_duplicate_key_classification.2.1 cfgNoVerify reqTen emptyDB errLookalike
    rfl (by decide) (Or.inl (by decide)) (by decide)
